import Mathlib

/-!
Shallow embedding of the multi-source data aggregator of
`autonomous-affiliate-revenue-growth-engine` (src/data_collector.py and the
`CashFlowTracker` of src/affiliate_revenue_engine.py), together with proofs
of its specified properties.

JSON payloads are abstract: the aggregator never inspects a decoded body, so
payloads are a type parameter `J`.  The HTTP backend is a function from the
index of the request (requests are issued strictly in sequence) to either a
response or a transport failure (`requests.RequestException`, modelled as
`Except.error msg`).  Python dictionaries are association lists with
insertion order and key-replacing update; Python exceptions that `collect`
can raise are the inductive `PyError`.
-/

/-- Log records emitted through the process-wide `logging` module. -/
inductive LogRecord where
  | error (msg : String)
  | info (msg : String)
deriving DecidableEq, Repr

/-- Python exceptions the embedded code can raise. -/
inductive PyError where
  | requestException (msg : String)
  | attributeError (attr : String)
  | nameError (name : String)
  | jsonDecodeError (msg : String)
deriving DecidableEq, Repr

/-- An HTTP response: `status` is `response.status_code`, `body` is the
outcome of `response.json()` (`Except.error` when the body is not JSON). -/
structure Response (J : Type) where
  status : Nat
  body : Except String J
deriving Repr

/-- Python dict lookup `d[k]` / `d.get(k)` on an insertion-ordered dict. -/
def dictLookup {J : Type} (d : List (String × J)) (k : String) : Option J :=
  (d.find? (fun p => p.1 == k)).map (fun p => p.2)

/-- Python dict update `d[k] = v`: replace in place when the key is present
(keeping its position), append otherwise. -/
def dictSet {J : Type} (d : List (String × J)) (k : String) (v : J) :
    List (String × J) :=
  if (d.map Prod.fst).contains k then
    d.map (fun p => if p.1 == k then (k, v) else p)
  else d ++ [(k, v)]

/-- Truthiness of a Python `Optional[List[str]]`: `None` and `[]` are falsy. -/
def pyTruthyList (l : Option (List String)) : Bool :=
  match l with
  | none => false
  | some l => !l.isEmpty

/-- Truthiness of a Python `Optional[int]`: `None` and `0` are falsy. -/
def pyTruthyNat (n : Option Nat) : Bool :=
  match n with
  | none => false
  | some n => n != 0

/-- Truthiness of a Python `Optional[str]`: `None` and `""` are falsy. -/
def pyTruthyStr (s : Option String) : Bool :=
  match s with
  | none => false
  | some s => !s.isEmpty

/-- Names bound at module scope in src/data_collector.py: line 1
`import requests` and line 2 `from typing import Dict, Optional`. -/
def dataCollectorModuleGlobals : List String := ["requests", "Dict", "Optional"]

/-- Methods defined on `class DataCollector` in src/data_collector.py. -/
def dataCollectorMethods : List String :=
  ["__init__", "collect", "_get_proxy", "_log_request_error"]

/-- Resolution of a global name in the data_collector module: a name that is
not bound raises `NameError`. -/
def resolveGlobal (n : String) : Except PyError Unit :=
  if dataCollectorModuleGlobals.contains n then Except.ok () else
    Except.error (PyError.nameError n)

/-- Attribute lookup `self.<name>` for a method on a `DataCollector`
instance: a missing method raises `AttributeError`. -/
def resolveMethod (n : String) : Except PyError Unit :=
  if dataCollectorMethods.contains n then Except.ok () else
    Except.error (PyError.attributeError n)

/-- Executing the `class DataCollector` statement evaluates the parameter
annotation `Optional[List[str]]` of `__init__` (line 13), which resolves the
names `Optional` and then `List` at module scope. -/
def evalDataCollectorClassDef : Except PyError Unit := do
  _ ← resolveGlobal "Optional"
  _ ← resolveGlobal "List"
  Except.ok ()

/-- The `DataCollector` instance state: `self.headers` and `self.proxies`
as set by `__init__`. -/
structure DataCollector where
  headers : List (String × String)
  proxies : Option (List String)
deriving DecidableEq, Repr

/-- Embedding of `DataCollector.__init__`: headers default to a JSON content-type hint;
the proxy list is stored as given. -/
def DataCollector.init (proxies : Option (List String)) : DataCollector :=
  ⟨[("Content-Type", "application/json")], proxies⟩

/-- Embedding of `DataCollector._get_proxy` (lines 41-48): `None` when the proxy list is
falsy, otherwise the dict `{"http": self.proxies[0]}` (always the first
entry; no rotation). -/
def DataCollector._get_proxy (c : DataCollector) :
    Option (List (String × String)) :=
  match c.proxies with
  | some (p :: _) => some [("http", p)]
  | _ => none

/-- The proxy argument `collect` passes to `requests.get` (line 30):
`self._get_proxy() if self.proxies else None`. -/
def DataCollector.proxyArg (c : DataCollector) :
    Option (List (String × String)) :=
  if pyTruthyList c.proxies then c._get_proxy else none

/-- Everything observable about one `collect` call: the GET requests issued
(URL and proxy argument, in order), the log records emitted, the returned
dict or the raised exception, and the instance state when the call ends. -/
structure CollectOut (J : Type) where
  requests : List (String × Option (List (String × String)))
  logs : List LogRecord
  result : Except PyError (List (String × J))
  self : DataCollector
deriving Repr

/-- The `for network in networks` loop of `DataCollector.collect`
(lines 27-39), with the request counter `i` indexing the backend and the
accumulated `data`, request trace and log trace passed explicitly.

Faithful to the source, including its unbound names:
* line 35 calls `_log_request_error`, whose body (line 51) evaluates the
  name `logging`, unbound at module scope (`dataCollectorModuleGlobals`),
  so a non-200 response raises `NameError`, which
  `except requests.RequestException` does not catch;
* line 37 of the handler calls `self._log_error`, a method the class does
  not define (`dataCollectorMethods`), so a transport failure raises
  `AttributeError` in place of the re-raised `RequestException`, before any
  log record is emitted. -/
def DataCollector.collectGo {J : Type} (c : DataCollector)
    (backend : Nat → Except String (Response J)) :
    List String → Nat → List (String × J) →
    List (String × Option (List (String × String))) → List LogRecord →
    CollectOut J
  | [], _, data, reqs, logs => ⟨reqs, logs, Except.ok data, c⟩
  | network :: rest, i, data, reqs, logs =>
    let reqs := reqs ++ [(network, c.proxyArg)]
    match backend i with
    | Except.error _ => ⟨reqs, logs, Except.error (PyError.attributeError "_log_error"), c⟩
    | Except.ok response =>
      if response.status = 200 then
        match response.body with
        | Except.ok payload =>
          DataCollector.collectGo c backend rest (i + 1)
            (dictSet data network payload) reqs logs
        | Except.error m =>
          ⟨reqs, logs, Except.error (PyError.jsonDecodeError m), c⟩
      else ⟨reqs, logs, Except.error (PyError.nameError "logging"), c⟩

/-- Embedding of `DataCollector.collect` (lines 17-39). -/
def DataCollector.collect {J : Type} (c : DataCollector)
    (backend : Nat → Except String (Response J)) (networks : List String) :
    CollectOut J :=
  DataCollector.collectGo c backend networks 0 [] [] []

/-- Rendering of a Python `Optional[int]` inside an f-string. -/
def optNatText (n : Option Nat) : String :=
  match n with
  | none => "None"
  | some n => toString n

/-- Rendering of a Python `Optional[str]` inside an f-string. -/
def optStrText (s : Option String) : String :=
  match s with
  | none => "None"
  | some s => s

/-- The `CashFlowTracker` instance state of src/affiliate_revenue_engine.py:
`self.payment_gateways`. -/
structure CashFlowTracker where
  payment_gateways : List String
deriving DecidableEq, Repr

/-- Embedding of `CashFlowTracker.__init__` (lines 88-89). -/
def CashFlowTracker.init : CashFlowTracker :=
  ⟨["api1", "api2"]⟩

/-- Embedding of `CashFlowTracker._handle_error` (lines 105-109), returning the log
records it emits.  Note the guards use Python truthiness: with a status and
no error message, `status and error` and `error` are both falsy, so nothing
is logged. -/
def CashFlowTracker._handle_error (source : String) (status : Option Nat)
    (error : Option String) : List LogRecord :=
  if pyTruthyNat status && pyTruthyStr error then
    [LogRecord.error (source ++ " API returned " ++ optNatText status ++ ": "
      ++ optStrText error)]
  else if pyTruthyStr error then
    [LogRecord.error ("Error in " ++ source ++ ": " ++ optStrText error)]
  else []

/-- Everything observable about one `track_cashflow` call: requested URLs in
order, log records, and the returned dict or raised exception. -/
structure TrackOut (J : Type) where
  requests : List String
  logs : List LogRecord
  result : Except PyError (List (String × J))
deriving Repr

/-- The `for gateway in self.payment_gateways` loop of
`CashFlowTracker.track_cashflow` (lines 91-103).  `except Exception` catches
every exception (transport failures and JSON decode failures alike), calls
`_handle_error("general", error=str(e))` and re-raises; a non-200 status
calls `_handle_error(gateway, status=...)` — which logs nothing — and the
loop continues. -/
def CashFlowTracker.trackGo {J : Type}
    (backend : Nat → Except String (Response J)) :
    List String → Nat → List (String × J) → List String → List LogRecord →
    TrackOut J
  | [], _, cashflow, reqs, logs => ⟨reqs, logs, Except.ok cashflow⟩
  | gateway :: rest, i, cashflow, reqs, logs =>
    let reqs := reqs ++ [gateway ++ "/cashflow"]
    match backend i with
    | Except.error e =>
      ⟨reqs, logs ++ CashFlowTracker._handle_error "general" none (some e),
        Except.error (PyError.requestException e)⟩
    | Except.ok response =>
      if response.status = 200 then
        match response.body with
        | Except.ok payload =>
          CashFlowTracker.trackGo backend rest (i + 1)
            (dictSet cashflow gateway payload) reqs logs
        | Except.error m =>
          ⟨reqs, logs ++ CashFlowTracker._handle_error "general" none (some m),
            Except.error (PyError.jsonDecodeError m)⟩
      else
        CashFlowTracker.trackGo backend rest (i + 1) cashflow reqs
          (logs ++ CashFlowTracker._handle_error gateway (some response.status) none)

/-- Embedding of `CashFlowTracker.track_cashflow` (lines 91-103). -/
def CashFlowTracker.track_cashflow {J : Type} (t : CashFlowTracker)
    (backend : Nat → Except String (Response J)) : TrackOut J :=
  CashFlowTracker.trackGo backend t.payment_gateways 0 [] [] []

/-- Proxy selection of the `requests` library, which the aggregator hands
its proxies dict to: the proxy used for a request is the entry of the dict
whose key equals the URL scheme; a scheme with no entry connects directly. -/
def proxyForScheme (proxyDict : Option (List (String × String)))
    (scheme : String) : Option String :=
  match proxyDict with
  | none => none
  | some d => (d.find? (fun kv => kv.1 == scheme)).map (fun kv => kv.2)

/-- First occurrence of a `some` value, specification helper for
last-write-wins lookups. -/
def optOr {J : Type} (a b : Option J) : Option J :=
  match a with
  | some x => some x
  | none => b

/-- The keys of a Python dict built by inserting a list of keys in order:
each key at its first occurrence. -/
def dedupFirst : List String → List String
  | [] => []
  | s :: rest => s :: (dedupFirst rest).filter (fun t => t != s)

/-- Insert the payloads of sources `ns` (the request at list position `k`
carrying `payloads (i + k)`) into the dict `data`, in order. -/
def insertAllFrom {J : Type} (payloads : Nat → J) :
    List String → Nat → List (String × J) → List (String × J)
  | [], _, data => data
  | s :: rest, i, data =>
    insertAllFrom payloads rest (i + 1) (dictSet data s (payloads i))

/-- The payload of the last request for source `s` among the requests for
`ns` starting at request index `i`. -/
def lookupLastFrom {J : Type} (payloads : Nat → J) :
    List String → Nat → String → Option J
  | [], _, _ => none
  | t :: rest, i, s =>
    optOr (lookupLastFrom payloads rest (i + 1) s)
      (if t == s then some (payloads i) else none)

/-! Lemmas about `optOr`, `dictLookup`, `dictSet` and `dedupFirst` -/

theorem optOr_none_left {J : Type} (b : Option J) : optOr none b = b := rfl

theorem optOr_none_right {J : Type} (a : Option J) : optOr a none = a := by
  cases a <;> rfl

theorem optOr_assoc {J : Type} (a b c : Option J) :
    optOr (optOr a b) c = optOr a (optOr b c) := by
  cases a <;> rfl

theorem dictLookup_nil {J : Type} (s : String) :
    dictLookup ([] : List (String × J)) s = none := rfl

theorem dictLookup_cons {J : Type} (q : String × J) (l : List (String × J))
    (s : String) :
    dictLookup (q :: l) s = if q.1 == s then some q.2 else dictLookup l s := by
  by_cases h : q.1 == s
  · simp [dictLookup, List.find?_cons_of_pos _ h, h]
  · simp [dictLookup, List.find?_cons_of_neg _ h, h]

theorem dictLookup_append {J : Type} (l1 l2 : List (String × J)) (s : String) :
    dictLookup (l1 ++ l2) s = optOr (dictLookup l1 s) (dictLookup l2 s) := by
  induction l1 with
  | nil => simp [dictLookup_nil, optOr_none_left]
  | cons q rest ih =>
    simp only [List.cons_append, dictLookup_cons, ih]
    by_cases h : q.1 == s
    · simp [h, optOr]
    · simp [h]

theorem dictLookup_eq_none {J : Type} (l : List (String × J)) (s : String)
    (h : (l.map Prod.fst).contains s = false) : dictLookup l s = none := by
  induction l with
  | nil => rfl
  | cons q rest ih =>
    simp only [List.map_cons, List.contains_cons, Bool.or_eq_false_iff,
      beq_eq_false_iff_ne] at h
    have hg : (q.1 == s) = false := by
      simp only [beq_eq_false_iff_ne]
      exact fun e => h.1 e.symm
    rw [dictLookup_cons, hg]
    simpa using ih h.2

theorem map_fst_keyFix {J : Type} (k : String) (v : J)
    (d : List (String × J)) :
    (d.map (fun p => if p.1 == k then (k, v) else p)).map Prod.fst =
      d.map Prod.fst := by
  induction d with
  | nil => rfl
  | cons p rest ih =>
    simp only [List.map_cons]
    rw [ih]
    congr 1
    by_cases h : p.1 == k
    · rw [if_pos h]
      exact (beq_iff_eq.mp h).symm
    · rw [if_neg h]

theorem dictSet_map_fst {J : Type} (d : List (String × J)) (k : String)
    (v : J) :
    (dictSet d k v).map Prod.fst =
      if (d.map Prod.fst).contains k then d.map Prod.fst
      else d.map Prod.fst ++ [k] := by
  by_cases h : (d.map Prod.fst).contains k
  · unfold dictSet
    rw [if_pos h, if_pos h, map_fst_keyFix]
  · unfold dictSet
    rw [if_neg h, if_neg h, List.map_append]
    rfl

theorem dictLookup_keyFix_ne {J : Type} (k : String) (v : J) (s : String)
    (h : s ≠ k) (d : List (String × J)) :
    dictLookup (d.map (fun p => if p.1 == k then (k, v) else p)) s =
      dictLookup d s := by
  induction d with
  | nil => rfl
  | cons q rest ih =>
    simp only [List.map_cons, dictLookup_cons]
    by_cases hq : q.1 == k
    · rw [if_pos hq]
      have hk : q.1 = k := beq_iff_eq.mp hq
      have hks : ((k, v).1 == s) = false :=
        beq_eq_false_iff_ne.mpr (fun e => h e.symm)
      have hqs : (q.1 == s) = false :=
        beq_eq_false_iff_ne.mpr (fun e => h (hk ▸ e).symm)
      rw [if_neg (ne_true_of_eq_false hks), if_neg (ne_true_of_eq_false hqs)]
      exact ih
    · rw [if_neg hq]
      by_cases hqs : q.1 == s
      · rw [if_pos hqs, if_pos hqs]
      · rw [if_neg hqs, if_neg hqs]
        exact ih

theorem dictLookup_keyFix_eq {J : Type} (k : String) (v : J)
    (d : List (String × J)) (h : (d.map Prod.fst).contains k = true) :
    dictLookup (d.map (fun p => if p.1 == k then (k, v) else p)) k = some v := by
  induction d with
  | nil => simp at h
  | cons q rest ih =>
    simp only [List.map_cons, dictLookup_cons]
    by_cases hq : q.1 == k
    · rw [if_pos hq]
      rw [if_pos (beq_self_eq_true k)]
    · rw [if_neg hq, if_neg hq]
      have hq2 : q.1 ≠ k := fun e => hq (beq_iff_eq.mpr e)
      have h2 : (rest.map Prod.fst).contains k = true := by
        simp only [List.map_cons, List.contains_cons, Bool.or_eq_true,
          beq_iff_eq] at h
        rcases h with h | h
        · exact absurd h.symm hq2
        · exact h
      exact ih h2

theorem dictLookup_dictSet {J : Type} (d : List (String × J)) (k s : String)
    (v : J) :
    dictLookup (dictSet d k v) s = if s = k then some v else dictLookup d s := by
  by_cases hc : (d.map Prod.fst).contains k
  · unfold dictSet
    rw [if_pos hc]
    by_cases hs : s = k
    · subst hs
      rw [if_pos rfl]
      exact dictLookup_keyFix_eq s v d hc
    · rw [if_neg hs]
      exact dictLookup_keyFix_ne k v s hs d
  · have hc2 : (d.map Prod.fst).contains k = false := by simpa using hc
    unfold dictSet
    rw [if_neg hc, dictLookup_append, dictLookup_cons, dictLookup_nil]
    by_cases hs : s = k
    · subst hs
      rw [if_pos rfl, if_pos (beq_self_eq_true s), dictLookup_eq_none d s hc2]
      rfl
    · have hg : ((k, v).1 == s) = false :=
        beq_eq_false_iff_ne.mpr (fun e => hs e.symm)
      rw [if_neg hs, if_neg (ne_true_of_eq_false hg), optOr_none_right]

theorem mem_dedupFirst (s : String) (l : List String) :
    s ∈ dedupFirst l ↔ s ∈ l := by
  induction l with
  | nil => simp [dedupFirst]
  | cons a rest ih =>
    simp only [dedupFirst, List.mem_cons, List.mem_filter, ih]
    by_cases h : s = a
    · simp [h]
    · simp [h, bne_iff_ne]

theorem dedupFirst_filter (q : String → Bool) (l : List String) :
    dedupFirst (l.filter q) = (dedupFirst l).filter q := by
  induction l with
  | nil => rfl
  | cons a rest ih =>
    by_cases hq : q a
    · rw [List.filter_cons, if_pos hq]
      simp only [dedupFirst, ih, List.filter_cons, hq, if_pos hq]
      rw [List.filter_filter, List.filter_filter]
      exact congrArg _ (List.filter_congr (fun x _ => Bool.and_comm _ _))
    · rw [List.filter_cons, if_neg hq, ih]
      show (dedupFirst rest).filter q =
        (a :: (dedupFirst rest).filter (fun t => t != a)).filter q
      rw [List.filter_cons, if_neg hq, List.filter_filter]
      refine List.filter_congr ?_
      intro x _
      by_cases hqx : q x = true
      · have hxa : (x != a) = true := bne_iff_ne.mpr (fun e => hq (e ▸ hqx))
        rw [hqx, hxa]
        rfl
      · have hqx2 : q x = false := by simpa using hqx
        rw [hqx2]
        rfl

theorem contains_append (l1 l2 : List String) (s : String) :
    (l1 ++ l2).contains s = (l1.contains s || l2.contains s) := by
  simp [List.contains_eq_any_beq]

/-! Characterization of `insertAllFrom` and `lookupLastFrom`. -/

theorem insertAllFrom_lookup {J : Type} (payloads : Nat → J)
    (ns : List String) :
    ∀ (i : Nat) (data : List (String × J)) (s : String),
      dictLookup (insertAllFrom payloads ns i data) s =
        optOr (lookupLastFrom payloads ns i s) (dictLookup data s) := by
  induction ns with
  | nil => intro i data s; rfl
  | cons t rest ih =>
    intro i data s
    simp only [insertAllFrom, lookupLastFrom, optOr_assoc]
    rw [ih, dictLookup_dictSet]
    congr 1
    by_cases h : s = t
    · subst h
      rw [if_pos rfl, if_pos (beq_self_eq_true s)]
      rfl
    · have hg : (t == s) = false :=
        beq_eq_false_iff_ne.mpr (fun e => h e.symm)
      rw [if_neg h, if_neg (ne_true_of_eq_false hg)]
      rfl

theorem insertAllFrom_map_fst {J : Type} (payloads : Nat → J)
    (ns : List String) :
    ∀ (i : Nat) (data : List (String × J)),
      (insertAllFrom payloads ns i data).map Prod.fst =
        data.map Prod.fst ++
          dedupFirst (ns.filter (fun s => !(data.map Prod.fst).contains s)) := by
  induction ns with
  | nil => intro i data; simp [insertAllFrom, dedupFirst]
  | cons t rest ih =>
    intro i data
    simp only [insertAllFrom]
    rw [ih, dictSet_map_fst]
    by_cases hc : (data.map Prod.fst).contains t
    · rw [if_pos hc, List.filter_cons]
      have : (!(data.map Prod.fst).contains t) = false := by rw [hc]; rfl
      rw [this]
      rfl
    · have hc2 : (data.map Prod.fst).contains t = false := by simpa using hc
      rw [if_neg hc, List.filter_cons]
      have hpt : (!(data.map Prod.fst).contains t) = true := by rw [hc2]; rfl
      rw [if_pos hpt]
      show (data.map Prod.fst ++ [t]) ++
          dedupFirst (rest.filter
            (fun s => !((data.map Prod.fst ++ [t]).contains s))) =
        data.map Prod.fst ++
          (t :: (dedupFirst (rest.filter
            (fun s => !(data.map Prod.fst).contains s))).filter
              (fun u => u != t))
      rw [List.append_assoc]
      congr 1
      show [t] ++ _ = t :: _
      rw [List.singleton_append]
      congr 1
      rw [← dedupFirst_filter, List.filter_filter]
      refine congrArg dedupFirst (List.filter_congr ?_)
      intro x _
      show (!((data.map Prod.fst ++ [t]).contains x)) =
        ((x != t) && !(data.map Prod.fst).contains x)
      rw [contains_append]
      cases hx : (data.map Prod.fst).contains x
      · simp only [hx, List.contains_cons, List.contains_nil, Bool.or_false,
          Bool.false_or, Bool.not_false, Bool.and_true, bne]
      · simp only [hx, Bool.true_or, Bool.not_true, Bool.and_false]

theorem lookupLastFrom_eq_none {J : Type} (payloads : Nat → J)
    (ns : List String) :
    ∀ (b : Nat) (s : String), s ∉ ns → lookupLastFrom payloads ns b s = none := by
  induction ns with
  | nil => intro b s _; rfl
  | cons t rest ih =>
    intro b s h
    have hne : s ≠ t := fun e => h (by rw [e]; exact List.mem_cons_self t rest)
    have hnr : s ∉ rest := fun m => h (List.mem_cons_of_mem _ m)
    have ht : (t == s) = false :=
      beq_eq_false_iff_ne.mpr (fun e => hne e.symm)
    simp only [lookupLastFrom]
    rw [ih b.succ s hnr, if_neg (ne_true_of_eq_false ht)]
    rfl

theorem lookupLastFrom_last {J : Type} (payloads : Nat → J)
    (ns : List String) :
    ∀ (b i : Nat) (hi : i < ns.length),
      (∀ (j : Nat) (hj : j < ns.length), i < j →
        ns.get ⟨j, hj⟩ ≠ ns.get ⟨i, hi⟩) →
      lookupLastFrom payloads ns b (ns.get ⟨i, hi⟩) = some (payloads (b + i)) := by
  induction ns with
  | nil => intro b i hi; simp at hi
  | cons t rest ih =>
    intro b i hi hlast
    cases i with
    | zero =>
      have hnr : t ∉ rest := by
        intro m
        obtain ⟨⟨k, hk⟩, e⟩ := List.mem_iff_get.mp m
        exact hlast (k + 1) (Nat.succ_lt_succ hk) (Nat.succ_pos k) e
      show lookupLastFrom payloads (t :: rest) b t = some (payloads (b + 0))
      simp only [lookupLastFrom]
      rw [lookupLastFrom_eq_none payloads rest b.succ t hnr,
        if_pos (beq_self_eq_true t)]
      rfl
    | succ k =>
      have hk : k < rest.length := Nat.lt_of_succ_lt_succ hi
      have hlast2 : ∀ (j : Nat) (hj : j < rest.length), k < j →
          rest.get ⟨j, hj⟩ ≠ rest.get ⟨k, hk⟩ := by
        intro j hj hkj e
        exact hlast (j + 1) (Nat.succ_lt_succ hj) (Nat.succ_lt_succ hkj) e
      show lookupLastFrom payloads (t :: rest) b (rest.get ⟨k, hk⟩) =
        some (payloads (b + (k + 1)))
      simp only [lookupLastFrom]
      rw [ih b.succ k hk hlast2]
      have : b.succ + k = b + (k + 1) := by omega
      rw [this]
      rfl

/-! Characterization of the `collect` loop. -/

theorem proxyArg_eq_none (c : DataCollector)
    (h : c.proxies = none ∨ c.proxies = some []) : c.proxyArg = none := by
  rcases h with h | h <;>
    simp [DataCollector.proxyArg, pyTruthyList, h]

theorem proxyArg_eq_first (c : DataCollector) (p : String) (ps : List String)
    (h : c.proxies = some (p :: ps)) : c.proxyArg = some [("http", p)] := by
  simp [DataCollector.proxyArg, pyTruthyList, DataCollector._get_proxy, h]

theorem collectGo_all_ok {J : Type} (c : DataCollector)
    (backend : Nat → Except String (Response J)) (payloads : Nat → J)
    (ns : List String) :
    ∀ (i : Nat) (data : List (String × J))
      (reqs : List (String × Option (List (String × String))))
      (logs : List LogRecord),
      (∀ k, k < ns.length →
        backend (i + k) = Except.ok ⟨200, Except.ok (payloads (i + k))⟩) →
      DataCollector.collectGo c backend ns i data reqs logs =
        ⟨reqs ++ ns.map (fun s => (s, c.proxyArg)), logs,
          Except.ok (insertAllFrom payloads ns i data), c⟩ := by
  induction ns with
  | nil =>
    intro i data reqs logs _
    simp [DataCollector.collectGo, insertAllFrom]
  | cons n rest ih =>
    intro i data reqs logs h
    have h0 : backend i = Except.ok ⟨200, Except.ok (payloads i)⟩ := by
      have := h 0 (Nat.succ_pos rest.length)
      simpa using this
    have h1 : ∀ k, k < rest.length →
        backend (i + 1 + k) = Except.ok ⟨200, Except.ok (payloads (i + 1 + k))⟩ := by
      intro k hk
      have e : i + (k + 1) = i + 1 + k := by omega
      have := h (k + 1) (Nat.succ_lt_succ hk)
      rw [e] at this
      exact this
    simp only [DataCollector.collectGo, h0]
    rw [if_pos trivial]
    rw [ih (i + 1) (dictSet data n (payloads i)) (reqs ++ [(n, c.proxyArg)]) logs h1]
    simp [insertAllFrom, List.append_assoc]

theorem collectGo_requests_mem {J : Type} (c : DataCollector)
    (backend : Nat → Except String (Response J)) (ns : List String) :
    ∀ (i : Nat) (data : List (String × J))
      (reqs : List (String × Option (List (String × String))))
      (logs : List LogRecord) (r : String × Option (List (String × String))),
      r ∈ (DataCollector.collectGo c backend ns i data reqs logs).requests →
      r ∈ reqs ∨ r.2 = c.proxyArg := by
  induction ns with
  | nil =>
    intro i data reqs logs r h
    exact Or.inl (by simpa [DataCollector.collectGo] using h)
  | cons n rest ih =>
    intro i data reqs logs r h
    have hterm : r ∈ reqs ++ [(n, c.proxyArg)] → r ∈ reqs ∨ r.2 = c.proxyArg := by
      intro hm
      rcases List.mem_append.mp hm with hm | hm
      · exact Or.inl hm
      · rcases List.mem_singleton.mp hm with rfl
        exact Or.inr rfl
    simp only [DataCollector.collectGo] at h
    split at h
    · exact hterm (by simpa using h)
    · split at h
      · split at h
        · rcases ih (i + 1) _ _ _ r h with h2 | h2
          · exact hterm h2
          · exact Or.inr h2
        · exact hterm (by simpa using h)
      · exact hterm (by simpa using h)

theorem collectGo_self {J : Type} (c : DataCollector)
    (backend : Nat → Except String (Response J)) (ns : List String) :
    ∀ (i : Nat) (data : List (String × J))
      (reqs : List (String × Option (List (String × String))))
      (logs : List LogRecord),
      (DataCollector.collectGo c backend ns i data reqs logs).self = c := by
  induction ns with
  | nil => intro i data reqs logs; rfl
  | cons n rest ih =>
    intro i data reqs logs
    simp only [DataCollector.collectGo]
    split
    · rfl
    · split
      · split
        · exact ih (i + 1) _ _ _
        · rfl
      · rfl

theorem insertAllFrom_nil_map_fst {J : Type} (payloads : Nat → J)
    (ns : List String) (i : Nat) :
    (insertAllFrom payloads ns i ([] : List (String × J))).map Prod.fst =
      dedupFirst ns := by
  rw [insertAllFrom_map_fst]
  show ([] : List String) ++
      dedupFirst (ns.filter
        (fun s => !(([] : List (String × J)).map Prod.fst).contains s)) =
    dedupFirst ns
  rw [List.nil_append]
  exact congrArg dedupFirst (List.filter_eq_self.mpr (fun a _ => rfl))

theorem insertAllFrom_nil_lookup {J : Type} (payloads : Nat → J)
    (ns : List String) (i : Nat) (s : String) :
    dictLookup (insertAllFrom payloads ns i ([] : List (String × J))) s =
      lookupLastFrom payloads ns i s := by
  rw [insertAllFrom_lookup, dictLookup_nil, optOr_none_right]

/-! Claim theorems. -/

/-- Claim C1, refuted by the code: on a transport-level failure `collect` is
specified to log the error and re-raise the `RequestException`, but the
class defines no `_log_error` method, so the handler raises
`AttributeError` instead, with no log record emitted; the sources after the
failing one are indeed never requested (only the request for "a" appears in
the trace, "b" is absent). -/
theorem collect_transport_failure_eval :
    (DataCollector.init none).collect
        (fun _ =>
          (Except.error "connection refused" : Except String (Response Nat)))
        ["a", "b"] =
      ⟨[("a", none)], [], Except.error (PyError.attributeError "_log_error"),
        DataCollector.init none⟩ := rfl

/-- Claim C2, refuted by the code: `DataCollector` cannot be constructed at
all, because its definition does not resolve only bound names: executing the
class statement evaluates the `__init__` annotation and resolves the name
`List`, which the module never imports, raising `NameError`; likewise the
body of `_log_request_error` resolves the unbound name `logging`. -/
theorem dataCollector_unbound_names :
    evalDataCollectorClassDef = Except.error (PyError.nameError "List") ∧
      resolveGlobal "logging" = Except.error (PyError.nameError "logging") :=
  ⟨rfl, rfl⟩

/-- Claim C3, refuted by the code: a non-200 response is specified to be
logged once at ERROR level without halting the batch, but
`_log_request_error` evaluates the unbound name `logging`, so the first
non-200 response raises `NameError`: no log record is emitted, the batch
halts, and the remaining source "b" is never requested even though it would
have answered 200. -/
theorem collect_non200_eval :
    (DataCollector.init none).collect
        (fun i =>
          if i = 0 then
            (Except.ok ⟨404, Except.ok 7⟩ : Except String (Response Nat))
          else Except.ok ⟨200, Except.ok 8⟩)
        ["a", "b"] =
      ⟨[("a", none)], [], Except.error (PyError.nameError "logging"),
        DataCollector.init none⟩ := rfl

/-- Claim C7: calling `collect` twice on the same instance with the same
source list against the same backend yields structurally identical outputs,
and `collect` does not mutate the instance configuration: the instance state
after the call (headers and proxies) is exactly the state before it. -/
theorem collect_idempotent_no_mutation {J : Type} (c : DataCollector)
    (backend : Nat → Except String (Response J)) (networks : List String) :
    (c.collect backend networks).self = c ∧
      DataCollector.collect (c.collect backend networks).self backend networks =
        c.collect backend networks := by
  have hself : (c.collect backend networks).self = c :=
    collectGo_self c backend networks 0 [] [] []
  exact ⟨hself, by rw [hself]⟩

/-- Claim C8: `collect` applied to the empty source list returns an empty
mapping, issues no HTTP request and emits no log record. -/
theorem collect_empty_sources {J : Type} (c : DataCollector)
    (backend : Nat → Except String (Response J)) :
    c.collect backend [] = ⟨[], [], Except.ok [], c⟩ := rfl

/-- Claim C10: with a non-empty proxy list, `_get_proxy` returns a dict
whose only entry is keyed "http", so under the scheme-keyed proxy selection
of the requests library the configured proxy applies only to http-scheme
requests; any other scheme — https in particular — gets no proxy and is
requested directly. -/
theorem get_proxy_http_only (c : DataCollector) (p : String)
    (ps : List String) (h : c.proxies = some (p :: ps)) :
    c._get_proxy = some [("http", p)] ∧
      (∀ scheme, scheme ≠ "http" →
        proxyForScheme c._get_proxy scheme = none) ∧
      proxyForScheme c._get_proxy "https" = none := by
  have hg : c._get_proxy = some [("http", p)] := by
    simp [DataCollector._get_proxy, h]
  have hall : ∀ scheme, scheme ≠ "http" →
      proxyForScheme c._get_proxy scheme = none := by
    intro scheme hs
    rw [hg]
    have hb : (("http" : String) == scheme) = false :=
      beq_eq_false_iff_ne.mpr (fun e => hs e.symm)
    simp [proxyForScheme, List.find?, hb]
  exact ⟨hg, hall, hall "https" (by decide)⟩

/-- Claim C4: for every non-empty source list in which every request returns
HTTP 200 with a JSON-decodable body, `collect` returns a non-empty dict
whose keys are exactly the given sources — each key sitting at the position
of its first request, so insertion order equals request order — and binds
every source to the decoded payload of its (last) request. -/
theorem collect_all_200_keys_payloads {J : Type} (c : DataCollector)
    (backend : Nat → Except String (Response J)) (payloads : Nat → J)
    (networks : List String) (hne : networks ≠ [])
    (hok : ∀ i, i < networks.length →
      backend i = Except.ok ⟨200, Except.ok (payloads i)⟩) :
    ∃ d, (c.collect backend networks).result = Except.ok d ∧ d ≠ [] ∧
      (∀ s, s ∈ d.map Prod.fst ↔ s ∈ networks) ∧
      d.map Prod.fst = dedupFirst networks ∧
      (∀ (i : Nat) (hi : i < networks.length),
        (∀ (j : Nat) (hj : j < networks.length), i < j →
          networks.get ⟨j, hj⟩ ≠ networks.get ⟨i, hi⟩) →
        dictLookup d (networks.get ⟨i, hi⟩) = some (payloads i)) := by
  have hok0 : ∀ k, k < networks.length →
      backend (0 + k) = Except.ok ⟨200, Except.ok (payloads (0 + k))⟩ := by
    intro k hk
    simpa [Nat.zero_add] using hok k hk
  have hcoll := collectGo_all_ok c backend payloads networks 0 [] [] [] hok0
  refine ⟨insertAllFrom payloads networks 0 [], ?_, ?_, ?_, ?_, ?_⟩
  · show (DataCollector.collectGo c backend networks 0 [] [] []).result = _
    rw [hcoll]
  · intro hd
    have hkeys := insertAllFrom_nil_map_fst payloads networks 0
    rw [hd] at hkeys
    cases hn : networks with
    | nil => exact hne hn
    | cons n rest =>
      rw [hn] at hkeys
      exact List.cons_ne_nil n _ hkeys.symm
  · intro s
    rw [insertAllFrom_nil_map_fst]
    exact mem_dedupFirst s networks
  · exact insertAllFrom_nil_map_fst payloads networks 0
  · intro i hi hlast
    rw [insertAllFrom_nil_lookup]
    have := lookupLastFrom_last payloads networks 0 i hi hlast
    simpa [Nat.zero_add] using this

/-- Witness for claim C4 at sources ["a", "b"] with payloads 0 and 1. -/
theorem collect_all_200_keys_payloads_witness :
    ∃ d, ((DataCollector.init none).collect
        (fun i =>
          (Except.ok ⟨200, Except.ok i⟩ : Except String (Response Nat)))
        ["a", "b"]).result = Except.ok d ∧ d ≠ [] ∧
      (∀ s, s ∈ d.map Prod.fst ↔ s ∈ (["a", "b"] : List String)) ∧
      d.map Prod.fst = dedupFirst ["a", "b"] ∧
      (∀ (i : Nat) (hi : i < (["a", "b"] : List String).length),
        (∀ (j : Nat) (hj : j < (["a", "b"] : List String).length), i < j →
          (["a", "b"] : List String).get ⟨j, hj⟩ ≠
            (["a", "b"] : List String).get ⟨i, hi⟩) →
        dictLookup d ((["a", "b"] : List String).get ⟨i, hi⟩) = some i) :=
  collect_all_200_keys_payloads (DataCollector.init none)
    (fun i => (Except.ok ⟨200, Except.ok i⟩ : Except String (Response Nat)))
    (fun i => i) ["a", "b"] (by decide) (fun i _ => rfl)

/-- Claim C5: for a source list containing a duplicated source where every
request answers HTTP 200, `collect` issues exactly one GET request per list
entry — so the duplicate causes redundant requests — and the result dict
binds every source, the duplicated one included, to the payload of its last
request (last-write-wins). -/
theorem collect_duplicate_sources_last_write_wins {J : Type}
    (c : DataCollector) (backend : Nat → Except String (Response J))
    (payloads : Nat → J) (networks : List String)
    (_hdup : ¬ networks.Nodup)
    (hok : ∀ i, i < networks.length →
      backend i = Except.ok ⟨200, Except.ok (payloads i)⟩) :
    (c.collect backend networks).requests.map Prod.fst = networks ∧
      ∃ d, (c.collect backend networks).result = Except.ok d ∧
        (∀ (i : Nat) (hi : i < networks.length),
          (∀ (j : Nat) (hj : j < networks.length), i < j →
            networks.get ⟨j, hj⟩ ≠ networks.get ⟨i, hi⟩) →
          dictLookup d (networks.get ⟨i, hi⟩) = some (payloads i)) := by
  have hok0 : ∀ k, k < networks.length →
      backend (0 + k) = Except.ok ⟨200, Except.ok (payloads (0 + k))⟩ := by
    intro k hk
    simpa [Nat.zero_add] using hok k hk
  have hcoll := collectGo_all_ok c backend payloads networks 0 [] [] [] hok0
  constructor
  · show (DataCollector.collectGo c backend networks 0 [] [] []).requests.map
      Prod.fst = networks
    rw [hcoll]
    simp only [List.nil_append, List.map_map]
    exact List.map_id networks
  · refine ⟨insertAllFrom payloads networks 0 [], ?_, ?_⟩
    · show (DataCollector.collectGo c backend networks 0 [] [] []).result = _
      rw [hcoll]
    · intro i hi hlast
      rw [insertAllFrom_nil_lookup]
      have := lookupLastFrom_last payloads networks 0 i hi hlast
      simpa [Nat.zero_add] using this

/-- Witness for claim C5 at sources ["a", "a"]: both entries are requested
and the key "a" is bound to the payload of the second (last) request. -/
theorem collect_duplicate_sources_last_write_wins_witness :
    ((DataCollector.init none).collect
        (fun i =>
          (Except.ok ⟨200, Except.ok i⟩ : Except String (Response Nat)))
        ["a", "a"]).requests.map Prod.fst = ["a", "a"] ∧
      ∃ d, ((DataCollector.init none).collect
          (fun i =>
            (Except.ok ⟨200, Except.ok i⟩ : Except String (Response Nat)))
          ["a", "a"]).result = Except.ok d ∧
        (∀ (i : Nat) (hi : i < (["a", "a"] : List String).length),
          (∀ (j : Nat) (hj : j < (["a", "a"] : List String).length), i < j →
            (["a", "a"] : List String).get ⟨j, hj⟩ ≠
              (["a", "a"] : List String).get ⟨i, hi⟩) →
          dictLookup d ((["a", "a"] : List String).get ⟨i, hi⟩) = some i) :=
  collect_duplicate_sources_last_write_wins (DataCollector.init none)
    (fun i => (Except.ok ⟨200, Except.ok i⟩ : Except String (Response Nat)))
    (fun i => i) ["a", "a"] (by decide) (fun i _ => rfl)

/-- Claim C6: every GET request issued by `collect` carries the same proxy
argument: the dict `{"http": first}` built from the first entry of the
proxy list whenever the proxy list is non-empty (constant selection, no
rotation), and no proxy at all when the proxy list is absent or empty. -/
theorem collect_proxy_selection_constant {J : Type} (c : DataCollector)
    (backend : Nat → Except String (Response J)) (networks : List String)
    (r : String × Option (List (String × String)))
    (hr : r ∈ (c.collect backend networks).requests) :
    (c.proxies = none ∨ c.proxies = some [] → r.2 = none) ∧
      (∀ (p : String) (ps : List String), c.proxies = some (p :: ps) →
        r.2 = some [("http", p)]) := by
  have h2 : r.2 = c.proxyArg := by
    rcases collectGo_requests_mem c backend networks 0 [] [] [] r hr with h | h
    · cases h
    · exact h
  constructor
  · intro h
    rw [h2, proxyArg_eq_none c h]
  · intro p ps h
    rw [h2, proxyArg_eq_first c p ps h]

/-- Witness for claim C6: a collector with proxy list ["px1", "px2"] sends
its one request for "a" with proxy dict {"http": "px1"}. -/
theorem collect_proxy_selection_constant_witness :
    ((DataCollector.init (some ["px1", "px2"])).proxies = none ∨
        (DataCollector.init (some ["px1", "px2"])).proxies = some [] →
      (("a", some [("http", "px1")]) :
        String × Option (List (String × String))).2 = none) ∧
      (∀ (p : String) (ps : List String),
        (DataCollector.init (some ["px1", "px2"])).proxies = some (p :: ps) →
        (("a", some [("http", "px1")]) :
          String × Option (List (String × String))).2 = some [("http", p)]) :=
  collect_proxy_selection_constant (DataCollector.init (some ["px1", "px2"]))
    (fun _ => (Except.error "boom" : Except String (Response Nat))) ["a"]
    ("a", some [("http", "px1")]) (by decide)

/-- Claim C9: `CashFlowTracker._handle_error` invoked with a status code and
no error message — exactly what the non-200 branch of `track_cashflow`
passes — emits no log record for any status value, so a non-200 gateway
response is dropped silently: the run below requests both gateways, gets a
404 from "api1", leaves "api1" out of the result, and ends with an empty
log. -/
theorem handle_error_status_only_silent {J : Type} (p0 p1 : J)
    (backend : Nat → Except String (Response J))
    (h0 : backend 0 = Except.ok ⟨404, Except.ok p0⟩)
    (h1 : backend 1 = Except.ok ⟨200, Except.ok p1⟩) :
    (∀ (g : String) (s : Nat),
      CashFlowTracker._handle_error g (some s) none = []) ∧
      CashFlowTracker.init.track_cashflow backend =
        ⟨["api1/cashflow", "api2/cashflow"], [], Except.ok [("api2", p1)]⟩ := by
  constructor
  · intro g s
    simp [CashFlowTracker._handle_error, pyTruthyNat, pyTruthyStr]
  · show CashFlowTracker.trackGo backend ["api1", "api2"] 0 [] [] [] = _
    simp only [CashFlowTracker.trackGo, h0, h1, CashFlowTracker._handle_error,
      pyTruthyNat, pyTruthyStr]
    norm_num
    exact ⟨⟨rfl, rfl⟩, rfl⟩

/-- Witness for claim C9 at a concrete backend: "api1" answers 404, "api2"
answers 200 with payload 2. -/
theorem handle_error_status_only_silent_witness :
    (∀ (g : String) (s : Nat),
      CashFlowTracker._handle_error g (some s) none = []) ∧
      CashFlowTracker.init.track_cashflow
          (fun i =>
            if i = 0 then
              (Except.ok ⟨404, Except.ok 1⟩ : Except String (Response Nat))
            else Except.ok ⟨200, Except.ok 2⟩) =
        ⟨["api1/cashflow", "api2/cashflow"], [], Except.ok [("api2", 2)]⟩ :=
  handle_error_status_only_silent 1 2
    (fun i =>
      if i = 0 then
        (Except.ok ⟨404, Except.ok 1⟩ : Except String (Response Nat))
      else Except.ok ⟨200, Except.ok 2⟩) rfl rfl

/-- Witness for claim C10: a collector constructed with proxy list
["myproxy"] returns {"http": "myproxy"} from `_get_proxy`, and the https
scheme gets no proxy. -/
theorem get_proxy_http_only_witness :
    (DataCollector.init (some ["myproxy"]))._get_proxy =
        some [("http", "myproxy")] ∧
      (∀ scheme, scheme ≠ "http" →
        proxyForScheme (DataCollector.init (some ["myproxy"]))._get_proxy
          scheme = none) ∧
      proxyForScheme (DataCollector.init (some ["myproxy"]))._get_proxy
        "https" = none :=
  get_proxy_http_only (DataCollector.init (some ["myproxy"])) "myproxy" []
    rfl
